import Mathlib

/-!
Shallow embedding of the real-time messaging core of the `social_media`
repository: the Socket.IO server (`backend/config/socket.js`) and the client
reconciliation layer (`frontend/src/context/SocketContext.jsx`).

Conventions of the embedding:
* JS `Map` state (`connectedUsers`) is an association list with `Map`
  semantics (`set` updates in place or appends, `delete` filters, `get`
  returns the first match).
* Possibly-absent JS fields are `Option`; JS `===` on two possibly-absent
  fields is `Option` equality (`undefined === undefined` is true).
* JS truthiness of a string field is modelled where the code relies on it:
  the empty string is falsy.
* A synchronous JS exception escaping a handler is `Except.error`.
* Handlers return the list of outbound emits they perform; persistence is a
  boolean collaborator outcome (`persistOk`) since the DB call itself is
  external.
-/

namespace SocialMedia

/-! ## JS Map model: `connectedUsers` (backend/config/socket.js line 5) -/

/-- State of the `connectedUsers` map: userId to socket id, in insertion
order, with each key occurring once in any state the server reaches. -/
abbrev ConnMap := List (String × String)

/-- JS `Map.prototype.set`: update in place when the key exists, otherwise
append. -/
def mapSet (m : ConnMap) (k v : String) : ConnMap :=
  if m.any (fun p => p.1 == k) then
    m.map (fun p => if p.1 == k then (k, v) else p)
  else
    m ++ [(k, v)]

/-- JS `Map.prototype.delete`. -/
def mapDelete (m : ConnMap) (k : String) : ConnMap :=
  m.filter (fun p => p.1 != k)

/-- JS `Map.prototype.get`: `none` models `undefined`. -/
def mapGet (m : ConnMap) (k : String) : Option String :=
  (m.find? (fun p => p.1 == k)).map (fun p => p.2)

/-- Embeds `getReceiverSocketId` (socket.js lines 281-283). -/
def getReceiverSocketId (m : ConnMap) (userId : String) : Option String :=
  mapGet m userId

/-! ## Status broadcasts -/

/-- Payload of a `userStatusUpdate` broadcast. -/
structure StatusUpdate where
  userId : String
  status : String
deriving DecidableEq

/-! ## Connection registration and disconnect (socket.js lines 59-66, 257-268) -/

/-- Everything the `connection` handler prologue does: join the personal
room `user_<id>`, store the socket mapping.  The source emits no status
broadcast here, so `statusEmits` is built empty. -/
structure ConnectionEffects where
  connectedUsers : ConnMap
  joinedRooms : List String
  statusEmits : List StatusUpdate
deriving DecidableEq

/-- Embeds the body of `io.on('connection', ...)` before the per-event
listeners are installed (socket.js lines 59-66). -/
def handleConnection (st : ConnMap) (userId socketId : String) : ConnectionEffects :=
  { connectedUsers := mapSet st userId socketId
    joinedRooms := ["user_" ++ userId]
    statusEmits := [] }

/-- Embeds `socket.on('disconnect', ...)` (socket.js lines 257-268): delete
the user's map entry and broadcast `offline`, unconditionally. -/
def handleDisconnect (st : ConnMap) (userId : String) : ConnMap × List StatusUpdate :=
  (mapDelete st userId, [⟨userId, "offline"⟩])

/-! ## Authentication middleware (socket.js lines 44-57) -/

/-- Outcome of the handshake middleware for one connection attempt. -/
inductive AuthResult where
  | refused (err : String)
  | accepted (userId : String)
deriving DecidableEq

/-- Embeds `io.use(...)` (socket.js lines 44-57).  `verify` is the external
`jwt.verify` collaborator returning the decoded userId, or `none` when it
throws.  A missing token, and the falsy empty-string token, are refused
before verification. -/
def authMiddleware (verify : String → Option String) (token : Option String) : AuthResult :=
  match token with
  | none => AuthResult.refused "Authentication error"
  | some t =>
      if t == "" then AuthResult.refused "Authentication error"
      else
        match verify t with
        | none => AuthResult.refused "Authentication error"
        | some uid => AuthResult.accepted uid

/-- One whole connection attempt: middleware first; only on success does the
`connection` handler run and the user enter `connectedUsers`. -/
def connectAttempt (verify : String → Option String) (token : Option String)
    (st : ConnMap) (socketId : String) : ConnMap × AuthResult :=
  match authMiddleware verify token with
  | AuthResult.refused e => (st, AuthResult.refused e)
  | AuthResult.accepted uid =>
      ((handleConnection st uid socketId).connectedUsers, AuthResult.accepted uid)

/-! ## sendMessage handler (socket.js lines 81-132) -/

/-- The fields of the `sendMessage` payload the handler branches on. -/
structure MessageData where
  conversationId : Option String
  senderId : Option String
  receiverId : Option String
deriving DecidableEq

/-- Observable effects of the `sendMessage` handler. -/
inductive SendEffect where
  | emitToRoom (room event : String)
  | emitNotification (room : String)
  | logError (context : String)
deriving DecidableEq

/-- Embeds `socket.on('sendMessage', ...)` (socket.js lines 81-132).  The
room broadcast happens first (both `socket.to` and `io.to` emit
`receiveMessage`); the notification is attempted only for a truthy
`receiverId` different from `senderId`, and a failing `prisma` call
(`persistOk = false`) is caught and logged, producing no emit and no error
to the sender. -/
def handleSendMessage (persistOk : Bool) (m : MessageData) : List SendEffect :=
  (match m.conversationId with
   | some cid =>
       if cid == "" then []
       else [SendEffect.emitToRoom cid "receiveMessage",
             SendEffect.emitToRoom cid "receiveMessage"]
   | none => []) ++
  (match m.receiverId with
   | some rid =>
       if rid == "" then []
       else if m.senderId == some rid then []
       else if persistOk then [SendEffect.emitNotification ("user_" ++ rid)]
       else [SendEffect.logError "Error creating message notification"]
   | none => [])

/-! ## messageReaction handler (socket.js lines 156-204) -/

/-- Persisted `MessageReaction` row, keyed `(messageId, userId, emoji)`. -/
structure Reaction where
  messageId : String
  userId : String
  emoji : String
deriving DecidableEq

/-- Persisted reaction table. -/
abbrev ReactionDB := List Reaction

/-- Prisma `upsert` on the `messageId_userId_emoji` unique key with
`update: \x7b\x7d`: no-op when the row exists, insert otherwise. -/
def reactionUpsert (db : ReactionDB) (r : Reaction) : ReactionDB :=
  if db.contains r then db else db ++ [r]

/-- Prisma `deleteMany` on the full key. -/
def reactionDeleteMany (db : ReactionDB) (r : Reaction) : ReactionDB :=
  db.filter (fun x => x != r)

/-- Inbound `messageReaction` payload.  The `userId` field is anything a
client might stuff into the payload; the handler's destructuring never
reads it. -/
structure ReactionPayload where
  messageId : String
  emoji : String
  action : String
  conversationId : String
  userId : Option String
deriving DecidableEq

/-- The `messageReaction` broadcast to the conversation room. -/
structure ReactionBroadcast where
  room : String
  messageId : String
  emoji : String
  action : String
  userId : String
deriving DecidableEq

/-- Embeds `socket.on('messageReaction', ...)` (socket.js lines 156-204):
persist according to `action` (errors caught and logged, leaving the DB
unchanged), then broadcast to the conversation room with the actor taken
from `socket.userId`. -/
def handleMessageReaction (persistOk : Bool) (db : ReactionDB) (connUserId : String)
    (p : ReactionPayload) : ReactionDB × ReactionBroadcast :=
  let db' :=
    if !persistOk then db
    else if p.action == "add" then reactionUpsert db ⟨p.messageId, connUserId, p.emoji⟩
    else if p.action == "remove" then reactionDeleteMany db ⟨p.messageId, connUserId, p.emoji⟩
    else db
  (db', ⟨p.conversationId, p.messageId, p.emoji, p.action, connUserId⟩)

/-! ## typing and updateStatus handlers (socket.js lines 135-148) -/

/-- Inbound `typing` payload; a spoofed `userId` field is ignored by the
handler's destructuring. -/
structure TypingPayload where
  conversationId : String
  isTyping : Bool
  userId : Option String
deriving DecidableEq

/-- The `userTyping` emit to the conversation room. -/
structure UserTypingEmit where
  room : String
  userId : String
  isTyping : Bool
deriving DecidableEq

/-- Embeds `socket.on('typing', ...)` (socket.js lines 135-140). -/
def handleTyping (connUserId : String) (p : TypingPayload) : UserTypingEmit :=
  ⟨p.conversationId, connUserId, p.isTyping⟩

/-- Inbound `updateStatus` payload; a spoofed `userId` field is ignored. -/
structure StatusPayload where
  status : String
  userId : Option String
deriving DecidableEq

/-- Embeds `socket.on('updateStatus', ...)` (socket.js lines 143-148). -/
def handleUpdateStatus (connUserId : String) (p : StatusPayload) : StatusUpdate :=
  ⟨connUserId, p.status⟩

/-! ## Group lifecycle handlers (socket.js lines 207-229) -/

/-- The group object of a group event payload; the handler reads `.id`. -/
structure Group where
  id : String
deriving DecidableEq

/-- One outbound emit of a group handler: target personal room and event. -/
structure GroupEmit where
  room : String
  event : String
deriving DecidableEq

/-- Embeds `socket.on('groupCreated', ...)` (socket.js lines 207-213).
`console.log('...', group.id)` throws a `TypeError` when `group` is
`undefined`; `participantIds.forEach` throws when `participantIds` is
`undefined`.  Nothing in the handler validates or drops the event. -/
def handleGroupCreated (group : Option Group) (participantIds : Option (List String)) :
    Except String (List GroupEmit) :=
  match group with
  | none => Except.error "TypeError: cannot read properties of undefined - id"
  | some _ =>
      match participantIds with
      | none => Except.error "TypeError: cannot read properties of undefined - forEach"
      | some ids => Except.ok (ids.map (fun pid => ⟨"user_" ++ pid, "newGroup"⟩))

/-- Embeds `socket.on('memberAdded', ...)` (socket.js lines 223-229).
`group.id` throws first when `group` is missing; spreading a missing
`participantIds` throws; a missing `newMemberId` does not throw, the
template literal renders it as the string `undefined`. -/
def handleMemberAdded (group : Option Group) (newMemberId : Option String)
    (participantIds : Option (List String)) : Except String (List GroupEmit) :=
  match group with
  | none => Except.error "TypeError: cannot read properties of undefined - id"
  | some _ =>
      match participantIds with
      | none => Except.error "TypeError: spread of undefined"
      | some ids =>
          Except.ok ((ids ++ [newMemberId.getD "undefined"]).map
            (fun pid => ⟨"user_" ++ pid, "groupMemberAdded"⟩))

/-! ## Client reconciliation layer (SocketContext.jsx) -/

/-- A client-side message record: the fields `handleNewMessage` and
`handleSendMessage` read.  `id` holds either a server id or, for an
optimistic entry, the locally generated `tempId`; `message` and `content`
are distinct JS fields. -/
structure CMsg where
  id : Option String
  tempId : Option String
  message : Option String
  content : Option String
  senderId : Option String
  conversationId : Option String
  createdAt : Int
  isOptimistic : Bool
deriving DecidableEq

/-- The duplicate test of `handleNewMessage` (SocketContext.jsx lines
439-444): exact id equality, then a truthy `tempId` equality, then the
heuristic on `message` text, `senderId` and a strict 5000 ms window. -/
def isDupOf (m incoming : CMsg) : Bool :=
  m.id == incoming.id ||
  (m.tempId.isSome && m.tempId != some "" && m.tempId == incoming.tempId) ||
  (m.message == incoming.message && m.senderId == incoming.senderId &&
    decide ((m.createdAt - incoming.createdAt).natAbs < 5000))

/-- Embeds `handleNewMessage` (SocketContext.jsx lines 426-471) restricted
to the confirmed message list of the selected conversation: AI
conversations are skipped, events for other conversations leave the list
alone, and a detected duplicate is silently dropped. -/
def handleNewMessage (selectedId : Option String) (selectedIsAI : Bool)
    (prev : List CMsg) (incoming : CMsg) : List CMsg :=
  if selectedIsAI then prev
  else if incoming.conversationId == selectedId then
    if prev.any (fun m => isDupOf m incoming) then prev else prev ++ [incoming]
  else prev

/-- The optimistic message built by `handleSendMessage` (SocketContext.jsx
lines 985-1005): its `id` field carries the fresh `tempId`, and it is
flagged `isOptimistic`. -/
def mkOptimistic (tempId content senderId conversationId : String) (now : Int) : CMsg :=
  { id := some tempId
    tempId := none
    message := none
    content := some content
    senderId := some senderId
    conversationId := some conversationId
    createdAt := now
    isOptimistic := true }

/-- The optimistic append (SocketContext.jsx line 1012). -/
def appendOptimistic (msgs : List CMsg) (opt : CMsg) : List CMsg :=
  msgs ++ [opt]

/-- The optimistic replacement on durable-write success (SocketContext.jsx
lines 1169-1184): every entry whose `id` equals the `tempId` becomes the
server message with `isOptimistic` cleared. -/
def replaceOptimistic (msgs : List CMsg) (tempId : String) (real : CMsg) : List CMsg :=
  msgs.map (fun m => if m.id == some tempId then { real with isOptimistic := false } else m)

/-- The failed-send cleanup (SocketContext.jsx line 1191). -/
def removeFailedOptimistic (msgs : List CMsg) (tempId : String) : List CMsg :=
  msgs.filter (fun m => m.id != some tempId)

/-! ## Client reaction state (SocketContext.jsx lines 473-507) -/

/-- JS object read with a default: `prev[k] || dflt`. -/
def objGet {α : Type} (m : List (String × α)) (k : String) (dflt : α) : α :=
  match m.find? (fun p => p.1 == k) with
  | some p => p.2
  | none => dflt

/-- JS object functional update `\x7b...prev, [k]: v\x7d`: replaces in
place when the key exists, appends otherwise. -/
def objSet {α : Type} (m : List (String × α)) (k : String) (v : α) : List (String × α) :=
  if m.any (fun p => p.1 == k) then
    m.map (fun p => if p.1 == k then (k, v) else p)
  else
    m ++ [(k, v)]

/-- Per-message reaction view: emoji to the list of reacting user ids. -/
abbrev EmojiUsers := List (String × List String)

/-- Client reaction state: messageId to its per-emoji user lists. -/
abbrev ClientReactions := List (String × EmojiUsers)

/-- Embeds `handleMessageReactionFromSocket` (SocketContext.jsx lines
473-507): explicit `add` inserts the user only when absent, explicit
`remove` filters the user out, and any other action falls back to the
legacy toggle. -/
def handleMessageReactionFromSocket (prev : ClientReactions)
    (messageId emoji userId action : String) : ClientReactions :=
  let currentReactions := objGet prev messageId []
  let currentEmojiUsers := objGet currentReactions emoji []
  let updatedEmojiUsers :=
    if action == "add" then
      if currentEmojiUsers.contains userId then currentEmojiUsers
      else currentEmojiUsers ++ [userId]
    else if action == "remove" then
      currentEmojiUsers.filter (fun i => i != userId)
    else
      if currentEmojiUsers.contains userId then
        currentEmojiUsers.filter (fun i => i != userId)
      else currentEmojiUsers ++ [userId]
  objSet prev messageId (objSet currentReactions emoji updatedEmojiUsers)

/-! ## Helper lemmas about the association-list embeddings -/

lemma find?_setMap {α : Type} (m : List (String × α)) (k : String) (v : α)
    (h : m.any (fun p => p.1 == k) = true) :
    (m.map (fun p => if p.1 == k then (k, v) else p)).find? (fun p => p.1 == k)
      = some (k, v) := by
  induction m with
  | nil => simp at h
  | cons p tl ih =>
      by_cases hp : (p.1 == k) = true
      · simp only [List.map_cons, if_pos hp]
        exact List.find?_cons_of_pos _ (by simp)
      · have h' : tl.any (fun p => p.1 == k) = true := by
          simpa [List.any_cons, hp] using h

        simp only [List.map_cons, if_neg hp]
        rw [List.find?_cons_of_neg _ (by simp [hp])]
        exact ih h'

lemma find?_objSet {α : Type} (m : List (String × α)) (k : String) (v : α) :
    (objSet m k v).find? (fun p => p.1 == k) = some (k, v) := by
  cases h : m.any (fun p => p.1 == k) with
  | true =>
      rw [objSet, if_pos h]
      exact find?_setMap m k v h
  | false =>
      rw [objSet, if_neg (by simp [h])]
      have hn : m.find? (fun p => p.1 == k) = none := by
        rw [List.find?_eq_none]
        intro x hx
        exact fun hxk => by simpa [hxk] using List.any_eq_false.mp h x hx
      simp [List.find?_append, hn]

lemma objGet_objSet {α : Type} (m : List (String × α)) (k : String) (v d : α) :
    objGet (objSet m k v) k d = v := by
  rw [objGet, find?_objSet]

lemma mapSet_eq_objSet (m : ConnMap) (k v : String) : mapSet m k v = objSet m k v := rfl

lemma mapGet_mapSet_self (m : ConnMap) (k v : String) :
    mapGet (mapSet m k v) k = some v := by
  rw [mapGet, mapSet_eq_objSet, find?_objSet]
  rfl

lemma mapGet_mapDelete_self (m : ConnMap) (k : String) :
    mapGet (mapDelete m k) k = none := by
  rw [mapGet, mapDelete]
  have hn : (m.filter (fun p => p.1 != k)).find? (fun p => p.1 == k) = none := by
    rw [List.find?_eq_none]
    intro x hx
    have hmem := List.mem_filter.mp hx
    simpa using hmem.2
  rw [hn]
  rfl

lemma keys_mapSet_nodup (m : ConnMap) (k v : String)
    (h : (m.map Prod.fst).Nodup) : ((mapSet m k v).map Prod.fst).Nodup := by
  cases hany : m.any (fun p => p.1 == k) with
  | true =>
      rw [mapSet, if_pos hany]
      have hkeys : (m.map (fun p => if p.1 == k then (k, v) else p)).map Prod.fst
          = m.map Prod.fst := by
        rw [List.map_map]
        apply List.map_congr_left
        intro p _
        by_cases hpk : (p.1 == k) = true
        · simp only [Function.comp, if_pos hpk]
          exact (beq_iff_eq.mp hpk).symm
        · simp only [Function.comp, if_neg hpk]
      rw [hkeys]; exact h
  | false =>
      rw [mapSet, if_neg (by simp [hany])]
      rw [List.map_append]
      rw [List.nodup_append]
      refine ⟨h, by simp, ?_⟩
      intro a ha hb
      simp at hb
      subst hb
      rcases List.mem_map.mp ha with ⟨p, hp, hpk⟩
      have hbad := List.any_eq_false.mp hany p hp
      rw [hpk] at hbad
      simp at hbad

lemma keys_mapDelete_nodup (m : ConnMap) (k : String)
    (h : (m.map Prod.fst).Nodup) : ((mapDelete m k).map Prod.fst).Nodup :=
  List.Nodup.sublist ((List.filter_sublist m).map Prod.fst) h

/-! ## Claim theorems -/

/-- C9: the server's connected-users table maps each identity to at most one
connection handle: a second simultaneous connection by the same identity
overwrites the stored handle, `getReceiverSocketId` returns only the most
recently registered connection, and a disconnect of any of the identity's
connections deletes the identity's entire entry (one key per identity is
preserved by both operations). -/
theorem connectedUsers_single_handle_invariant (st : ConnMap) (u a b : String) :
    getReceiverSocketId
        (handleConnection (handleConnection st u a).connectedUsers u b).connectedUsers u
      = some b ∧
    getReceiverSocketId (handleDisconnect st u).1 u = none ∧
    ((st.map Prod.fst).Nodup →
      (((handleConnection st u a).connectedUsers).map Prod.fst).Nodup) ∧
    ((st.map Prod.fst).Nodup →
      (((handleDisconnect st u).1).map Prod.fst).Nodup) := by
  refine ⟨?_, ?_, ?_, ?_⟩
  · exact mapGet_mapSet_self _ u b
  · exact mapGet_mapDelete_self st u
  · exact fun h => keys_mapSet_nodup st u a h
  · exact fun h => keys_mapDelete_nodup st u h

/-- Witness for C9 at a concrete registry. -/
theorem connectedUsers_single_handle_invariant_witness :
    getReceiverSocketId
        (handleConnection
          (handleConnection [("u2", "s9")] "u1" "sockA").connectedUsers
          "u1" "sockB").connectedUsers "u1" = some "sockB" ∧
    ((([("u2", "s9")] : ConnMap).map Prod.fst).Nodup →
      ((((handleConnection [("u2", "s9")] "u1" "sockA").connectedUsers)).map Prod.fst).Nodup) := by
  refine ⟨(connectedUsers_single_handle_invariant [("u2", "s9")] "u1" "sockA" "sockB").1,
    (connectedUsers_single_handle_invariant [("u2", "s9")] "u1" "sockA" "sockB").2.2.1⟩

/-- C1 counterexample: an identity with two live connections.  The second
`connection` overwrote the first handle; each of the two `disconnect`
events emits its own `offline` broadcast, so the identity going offline is
broadcast twice, and the first broadcast already happens while the other
connection is still live (its lookup entry is gone immediately). -/
theorem presence_offline_broadcast_cex :
    (handleDisconnect
        (handleConnection
          (handleConnection [] "u1" "sockA").connectedUsers
          "u1" "sockB").connectedUsers "u1").2 ++
      (handleDisconnect
        (handleDisconnect
          (handleConnection
            (handleConnection [] "u1" "sockA").connectedUsers
            "u1" "sockB").connectedUsers "u1").1 "u1").2
      = [⟨"u1", "offline"⟩, ⟨"u1", "offline"⟩] ∧
    mapGet
        (handleDisconnect
          (handleConnection
            (handleConnection [] "u1" "sockA").connectedUsers
            "u1" "sockB").connectedUsers "u1").1 "u1" = none := by
  exact ⟨rfl, rfl⟩

/-- C1 (amended): the registry keys at most one handle per identity, so any
`disconnect` event for an identity deletes the identity's entire entry — a
subsequent lookup returns nothing — and the `offline` status broadcast is
emitted once per disconnect event, not once per identity going offline. -/
theorem presence_disconnect_deletes_and_broadcasts (st : ConnMap) (u : String) :
    getReceiverSocketId (handleDisconnect st u).1 u = none ∧
    (handleDisconnect st u).2 = [⟨u, "offline"⟩] := by
  exact ⟨mapGet_mapDelete_self st u, rfl⟩

/-- C6 counterexample: registering an identity's first live connection (the
registry is empty beforehand, so the lookup misses) emits no status
broadcast at all — in particular no "online" event. -/
theorem registration_no_online_cex :
    getReceiverSocketId [] "u1" = none ∧
    (handleConnection [] "u1" "s1").statusEmits = [] := by
  exact ⟨rfl, rfl⟩

/-- C6 (amended): connection registration joins the personal room
`user_<id>` and stores the socket mapping (a subsequent lookup returns the
new handle), but broadcasts no status event; no "online" broadcast exists
at registration time. -/
theorem registration_effects_amended (st : ConnMap) (u s : String) :
    (handleConnection st u s).statusEmits = [] ∧
    (handleConnection st u s).joinedRooms = ["user_" ++ u] ∧
    getReceiverSocketId (handleConnection st u s).connectedUsers u = some s := by
  exact ⟨rfl, rfl, mapGet_mapSet_self st u s⟩

/-- C8: a connection attempt with an absent (or falsy) token, or a token
that fails verification, is refused with "Authentication error" and the
Presence Registry is left untouched — the `connection` handler never runs;
a successfully verified token yields the owning identity and only then does
the connection register. -/
theorem auth_refused_before_registration (verify : String → Option String)
    (st : ConnMap) (sid : String) :
    connectAttempt verify none st sid = (st, AuthResult.refused "Authentication error") ∧
    (∀ t, verify t = none →
      connectAttempt verify (some t) st sid = (st, AuthResult.refused "Authentication error")) ∧
    connectAttempt verify (some "") st sid = (st, AuthResult.refused "Authentication error") ∧
    (∀ t uid, t ≠ "" → verify t = some uid →
      connectAttempt verify (some t) st sid
        = ((handleConnection st uid sid).connectedUsers, AuthResult.accepted uid)) := by
  refine ⟨rfl, ?_, rfl, ?_⟩
  · intro t ht
    by_cases h0 : (t == "") = true
    · simp [connectAttempt, authMiddleware, h0]
    · simp [connectAttempt, authMiddleware, h0, ht]
  · intro t uid ht hv
    have h0 : (t == "") = false := by
      simpa using ht
    simp [connectAttempt, authMiddleware, h0, hv]

/-- Witness for C8 with a concrete verifier accepting exactly the token
"tok" as user "u1". -/
theorem auth_refused_before_registration_witness :
    connectAttempt (fun t => if t == "tok" then some "u1" else none) (some "bad") [] "s1"
      = ([], AuthResult.refused "Authentication error") ∧
    connectAttempt (fun t => if t == "tok" then some "u1" else none) (some "tok") [] "s1"
      = ((handleConnection [] "u1" "s1").connectedUsers, AuthResult.accepted "u1") := by
  refine ⟨?_, ?_⟩
  · exact (auth_refused_before_registration
      (fun t => if t == "tok" then some "u1" else none) [] "s1").2.1 "bad" (by decide)
  · exact (auth_refused_before_registration
      (fun t => if t == "tok" then some "u1" else none) [] "s1").2.2.2 "tok" "u1"
      (by decide) (by decide)

/-- C10: the `userId` carried by the `userTyping`, `userStatusUpdate` and
`messageReaction` broadcasts is always the identity derived from the
verified handshake token (`socket.userId`), never a client-supplied payload
field: for any two inbound payloads on the same authenticated connection
the emitted `userId` is identical. -/
theorem broadcast_userId_from_handshake (uid : String) (p q : TypingPayload)
    (sp sq : StatusPayload) (rp rq : ReactionPayload) (b1 b2 : Bool)
    (db1 db2 : ReactionDB) :
    (handleTyping uid p).userId = uid ∧
    (handleTyping uid p).userId = (handleTyping uid q).userId ∧
    (handleUpdateStatus uid sp).userId = uid ∧
    (handleUpdateStatus uid sp).userId = (handleUpdateStatus uid sq).userId ∧
    (handleMessageReaction b1 db1 uid rp).2.userId = uid ∧
    (handleMessageReaction b1 db1 uid rp).2.userId
      = (handleMessageReaction b2 db2 uid rq).2.userId := by
  exact ⟨rfl, rfl, rfl, rfl, rfl, rfl⟩

/-- C4 counterexample: a `groupCreated` event without a group object, a
`groupCreated` event without a `participantIds` array, and a `memberAdded`
event without a group object each make the handler throw a `TypeError`
instead of dropping the event with a logged diagnostic. -/
theorem group_malformed_payload_cex :
    handleGroupCreated none (some ["u2"])
      = Except.error "TypeError: cannot read properties of undefined - id" ∧
    handleGroupCreated (some ⟨"g1"⟩) none
      = Except.error "TypeError: cannot read properties of undefined - forEach" ∧
    handleMemberAdded none (some "u3") (some ["u2"])
      = Except.error "TypeError: cannot read properties of undefined - id" := by
  exact ⟨rfl, rfl, rfl⟩

/-- C4 (amended): the group handlers perform no payload validation — a
well-formed payload fans out to each participant's personal room, while a
payload missing the group object or the participantIds array makes the
handler throw a `TypeError` (the exception escapes the handler; the event
is not silently dropped).  No mutation occurs either way: these handlers
only emit. -/
theorem group_handlers_malformed_amended (g : Group) (ids : List String) (nm : String) :
    handleGroupCreated (some g) (some ids)
      = Except.ok (ids.map (fun pid => ⟨"user_" ++ pid, "newGroup"⟩)) ∧
    handleMemberAdded (some g) (some nm) (some ids)
      = Except.ok ((ids ++ [nm]).map (fun pid => ⟨"user_" ++ pid, "groupMemberAdded"⟩)) ∧
    handleGroupCreated none (some ids)
      = Except.error "TypeError: cannot read properties of undefined - id" ∧
    handleGroupCreated (some g) none
      = Except.error "TypeError: cannot read properties of undefined - forEach" ∧
    handleMemberAdded none (some nm) (some ids)
      = Except.error "TypeError: cannot read properties of undefined - id" ∧
    handleMemberAdded (some g) (some nm) none
      = Except.error "TypeError: spread of undefined" := by
  exact ⟨rfl, rfl, rfl, rfl, rfl, rfl⟩

/-- C5: for every `sendMessage` payload with a (truthy) conversationId, the
two `receiveMessage` room broadcasts come first and occur whether or not
the notification persistence call succeeds (a failing call is caught and
only logged — the handler surfaces no error); and a notification emit
happens only when the payload names a truthy receiver distinct from the
sender, and only when persistence succeeded. -/
theorem sendMessage_broadcast_independent_of_notification
    (m : MessageData) (persistOk : Bool) :
    (∀ cid, m.conversationId = some cid → cid ≠ "" →
      (handleSendMessage persistOk m).take 2
        = [SendEffect.emitToRoom cid "receiveMessage",
           SendEffect.emitToRoom cid "receiveMessage"]) ∧
    (∀ room, SendEffect.emitNotification room ∈ handleSendMessage persistOk m →
      persistOk = true ∧
        ∃ rid, room = "user_" ++ rid ∧ rid ≠ "" ∧
          m.receiverId = some rid ∧ m.senderId ≠ some rid) := by
  constructor
  · intro cid hc h0
    have h0' : (cid == "") = false := by simpa using h0
    rw [handleSendMessage, hc]
    simp only [h0', Bool.false_eq_true, if_false]
    rfl
  · intro room hmem
    rw [handleSendMessage, List.mem_append] at hmem
    rcases hmem with hmem | hmem
    · exfalso
      cases hc : m.conversationId with
      | none => rw [hc] at hmem; simp at hmem
      | some cid =>
          rw [hc] at hmem
          by_cases h0 : (cid == "") = true
          · simp [h0] at hmem
          · simp only [h0, Bool.false_eq_true, if_false] at hmem
            simp at hmem
    · cases hr : m.receiverId with
      | none => rw [hr] at hmem; simp at hmem
      | some rid =>
          rw [hr] at hmem
          by_cases h0 : (rid == "") = true
          · simp [h0] at hmem
          · simp only [h0, Bool.false_eq_true, if_false] at hmem
            by_cases hs : (m.senderId == some rid) = true
            · simp [hs] at hmem
            · simp only [hs, Bool.false_eq_true, if_false] at hmem
              cases persistOk with
              | false => simp at hmem
              | true =>
                  simp at hmem
                  refine ⟨rfl, rid, hmem, ?_, rfl, ?_⟩
                  · simpa using h0
                  · intro hsend
                    exact hs (by simp [hsend])

/-- Witness for C5: a failing persistence call still broadcasts, and a
successful one emits the notification only for the distinct receiver. -/
theorem sendMessage_broadcast_independent_of_notification_witness :
    (handleSendMessage false ⟨some "c1", some "uA", some "uB"⟩).take 2
      = [SendEffect.emitToRoom "c1" "receiveMessage",
         SendEffect.emitToRoom "c1" "receiveMessage"] ∧
    (SendEffect.emitNotification "user_uB"
        ∈ handleSendMessage true ⟨some "c1", some "uA", some "uB"⟩ →
      (true : Bool) = true ∧
        ∃ rid, "user_uB" = "user_" ++ rid ∧ rid ≠ "" ∧
          (some "uB" : Option String) = some rid ∧ (some "uA" : Option String) ≠ some rid) := by
  refine ⟨?_, ?_⟩
  · exact (sendMessage_broadcast_independent_of_notification
      ⟨some "c1", some "uA", some "uB"⟩ false).1 "c1" rfl (by decide)
  · exact fun hmem => (sendMessage_broadcast_independent_of_notification
      ⟨some "c1", some "uA", some "uB"⟩ true).2 "user_uB" hmem

lemma isDupOf_self (m : CMsg) : isDupOf m m = true := by
  simp [isDupOf]

/-- C2: a message event delivered twice to the same client leaves the
confirmed list with exactly one entry for it: the second delivery is
detected as a duplicate (by the id / tempId / 5-second-heuristic
disjunction of `isDupOf`) and silently dropped, while a first delivery that
matches no existing entry appends exactly one entry. -/
theorem newMessage_double_delivery_dedup (sel : Option String) (ai : Bool)
    (prev : List CMsg) (inc : CMsg) :
    handleNewMessage sel ai (handleNewMessage sel ai prev inc) inc
      = handleNewMessage sel ai prev inc ∧
    (ai = false → (inc.conversationId == sel) = true →
      prev.any (fun m => isDupOf m inc) = false →
      (handleNewMessage sel ai prev inc).count inc = prev.count inc + 1) := by
  constructor
  · cases ai with
    | true => simp [handleNewMessage]
    | false =>
        by_cases hc : (inc.conversationId == sel) = true
        · by_cases hd : prev.any (fun m => isDupOf m inc) = true
          · simp [handleNewMessage, hc, hd]
          · have hd' : prev.any (fun m => isDupOf m inc) = false := by
              simpa using hd
            have h2 : (prev ++ [inc]).any (fun m => isDupOf m inc) = true := by
              simp [List.any_append, isDupOf_self]
            simp [handleNewMessage, hc, hd', h2]
        · have hc' : (inc.conversationId == sel) = false := by simpa using hc
          simp [handleNewMessage, hc']
  · intro hai hc hd
    subst hai
    simp [handleNewMessage, hc, hd]

/-- Witness for C2: a fresh message for the selected conversation is
appended once, and its second delivery changes nothing. -/
theorem newMessage_double_delivery_dedup_witness :
    handleNewMessage (some "c1") false
        (handleNewMessage (some "c1") false []
          ⟨some "m1", none, some "hi", some "hi", some "uA", some "c1", 0, false⟩)
        ⟨some "m1", none, some "hi", some "hi", some "uA", some "c1", 0, false⟩
      = handleNewMessage (some "c1") false []
          ⟨some "m1", none, some "hi", some "hi", some "uA", some "c1", 0, false⟩ ∧
    (handleNewMessage (some "c1") false []
        ⟨some "m1", none, some "hi", some "hi", some "uA", some "c1", 0, false⟩).count
      ⟨some "m1", none, some "hi", some "hi", some "uA", some "c1", 0, false⟩
      = ([] : List CMsg).count
          ⟨some "m1", none, some "hi", some "hi", some "uA", some "c1", 0, false⟩ + 1 := by
  exact ⟨(newMessage_double_delivery_dedup (some "c1") false []
      ⟨some "m1", none, some "hi", some "hi", some "uA", some "c1", 0, false⟩).1,
    (newMessage_double_delivery_dedup (some "c1") false []
      ⟨some "m1", none, some "hi", some "hi", some "uA", some "c1", 0, false⟩).2
      rfl (by decide) (by decide)⟩

lemma replaceOptimistic_append_fresh (msgs : List CMsg) (t : String) (opt real : CMsg)
    (hfresh : ∀ m ∈ msgs, m.id ≠ some t) (hopt : opt.id = some t) :
    replaceOptimistic (msgs ++ [opt]) t real
      = msgs ++ [{ real with isOptimistic := false }] := by
  rw [replaceOptimistic, List.map_append]
  congr 1
  · have hpt : ∀ m ∈ msgs,
        (if m.id == some t then { real with isOptimistic := false } else m) = m := by
      intro m hm
      simp [hfresh m hm]
    calc msgs.map (fun m => if m.id == some t then { real with isOptimistic := false } else m)
          = msgs.map id := List.map_congr_left (fun m hm => hpt m hm)
      _ = msgs := List.map_id msgs
  · simp [hopt]

/-- C7: after the optimistic append under a fresh `tempId` and the
replacement triggered by durable-write success, the list holds exactly one
entry under the server id — carrying the original content, no longer
optimistic — and zero entries under the temporary id. -/
theorem optimistic_replacement_unique (msgs : List CMsg) (t c s cv : String)
    (now : Int) (real : CMsg)
    (hfresh : ∀ m ∈ msgs, m.id ≠ some t)
    (hreal_id : real.id ≠ some t)
    (hreal_new : ∀ m ∈ msgs, m.id ≠ real.id)
    (hcontent : real.content = some c) :
    (replaceOptimistic (appendOptimistic msgs (mkOptimistic t c s cv now)) t real).countP
        (fun m => m.id == real.id) = 1 ∧
    (replaceOptimistic (appendOptimistic msgs (mkOptimistic t c s cv now)) t real).countP
        (fun m => m.id == some t) = 0 ∧
    (∀ m ∈ replaceOptimistic (appendOptimistic msgs (mkOptimistic t c s cv now)) t real,
      m.id = real.id → m.content = some c ∧ m.isOptimistic = false) := by
  have hrw : replaceOptimistic (appendOptimistic msgs (mkOptimistic t c s cv now)) t real
      = msgs ++ [{ real with isOptimistic := false }] :=
    replaceOptimistic_append_fresh msgs t (mkOptimistic t c s cv now) real hfresh rfl
  rw [hrw]
  refine ⟨?_, ?_, ?_⟩
  · rw [List.countP_append]
    have hz : msgs.countP (fun m => m.id == real.id) = 0 := by
      rw [List.countP_eq_zero]
      intro m hm
      simp [hreal_new m hm]
    rw [hz]
    simp
  · rw [List.countP_append]
    have hz : msgs.countP (fun m => m.id == some t) = 0 := by
      rw [List.countP_eq_zero]
      intro m hm
      simp [hfresh m hm]
    rw [hz]
    simp [hreal_id]
  · intro m hm hid
    rcases List.mem_append.mp hm with hm | hm
    · exact absurd hid (hreal_new m hm)
    · have : m = { real with isOptimistic := false } := by simpa using hm
      subst this
      exact ⟨hcontent, rfl⟩

/-- Witness for C7: the spec scenario — tempId "t1", content "hi", server
id "m1" — ends with one "m1" entry and zero "t1" entries. -/
theorem optimistic_replacement_unique_witness :
    (replaceOptimistic (appendOptimistic [] (mkOptimistic "t1" "hi" "uA" "c1" 0)) "t1"
        ⟨some "m1", none, none, some "hi", some "uA", some "c1", 5, false⟩).countP
        (fun m => m.id == (⟨some "m1", none, none, some "hi", some "uA", some "c1", 5, false⟩ : CMsg).id) = 1 ∧
    (replaceOptimistic (appendOptimistic [] (mkOptimistic "t1" "hi" "uA" "c1" 0)) "t1"
        ⟨some "m1", none, none, some "hi", some "uA", some "c1", 5, false⟩).countP
        (fun m => m.id == some "t1") = 0 := by
  exact ⟨(optimistic_replacement_unique [] "t1" "hi" "uA" "c1" 0
      ⟨some "m1", none, none, some "hi", some "uA", some "c1", 5, false⟩
      (by simp) (by decide) (by simp) rfl).1,
    (optimistic_replacement_unique [] "t1" "hi" "uA" "c1" 0
      ⟨some "m1", none, none, some "hi", some "uA", some "c1", 5, false⟩
      (by simp) (by decide) (by simp) rfl).2.1⟩

lemma client_add_not_mem (s : ClientReactions) (mId e u : String)
    (h : u ∉ objGet (objGet s mId []) e []) :
    handleMessageReactionFromSocket s mId e u "add"
      = objSet s mId (objSet (objGet s mId [])
          e (objGet (objGet s mId []) e [] ++ [u])) := by
  simp [handleMessageReactionFromSocket, h]

lemma client_add_mem (s : ClientReactions) (mId e u : String)
    (h : u ∈ objGet (objGet s mId []) e []) :
    handleMessageReactionFromSocket s mId e u "add"
      = objSet s mId (objSet (objGet s mId [])
          e (objGet (objGet s mId []) e [])) := by
  simp [handleMessageReactionFromSocket, h]

lemma reactionUpsert_not_mem (db : ReactionDB) (r : Reaction) (h : r ∉ db) :
    reactionUpsert db r = db ++ [r] := by
  rw [reactionUpsert, if_neg]
  simp [h]

lemma reactionUpsert_mem (db : ReactionDB) (r : Reaction) (h : r ∈ db) :
    reactionUpsert db r = db := by
  rw [reactionUpsert, if_pos]
  simp [h]

/-- C3: a repeated reaction `add` with identical `(messageId, userId,
emoji)` is idempotent on both sides: after two server-side `add` events the
persisted table holds the key exactly once (the upsert inserts it the first
time and is a no-op the second), and after two client-side `add`
applications the per-message emoji-to-userIds mapping holds the user
exactly once. -/
theorem reaction_add_idempotent (db : ReactionDB) (cr : ClientReactions)
    (u mId e conv : String) (spoof : Option String) :
    (db.count ⟨mId, u, e⟩ = 0 →
      ((handleMessageReaction true
          (handleMessageReaction true db u ⟨mId, e, "add", conv, spoof⟩).1
          u ⟨mId, e, "add", conv, spoof⟩).1).count ⟨mId, u, e⟩ = 1) ∧
    ((objGet (objGet cr mId []) e []).count u = 0 →
      (objGet (objGet
          (handleMessageReactionFromSocket
            (handleMessageReactionFromSocket cr mId e u "add") mId e u "add")
          mId []) e []).count u = 1) := by
  constructor
  · intro h0
    have hnm : (⟨mId, u, e⟩ : Reaction) ∉ db := List.count_eq_zero.mp h0
    have h1 : (handleMessageReaction true db u ⟨mId, e, "add", conv, spoof⟩).1
        = db ++ [⟨mId, u, e⟩] := by
      simp [handleMessageReaction, reactionUpsert_not_mem db _ hnm]
    have hm2 : (⟨mId, u, e⟩ : Reaction) ∈ db ++ [⟨mId, u, e⟩] := by simp
    have h2 : (handleMessageReaction true
          (handleMessageReaction true db u ⟨mId, e, "add", conv, spoof⟩).1
          u ⟨mId, e, "add", conv, spoof⟩).1
        = db ++ [⟨mId, u, e⟩] := by
      rw [h1]
      simp [handleMessageReaction, reactionUpsert_mem _ _ hm2]
    rw [h2, List.count_append, h0]
    simp
  · intro h0
    have hnm : u ∉ objGet (objGet cr mId []) e [] := List.count_eq_zero.mp h0
    have h1 := client_add_not_mem cr mId e u hnm
    have hl1 : objGet (objGet (handleMessageReactionFromSocket cr mId e u "add") mId []) e []
        = objGet (objGet cr mId []) e [] ++ [u] := by
      rw [h1, objGet_objSet, objGet_objSet]
    have hmem2 : u ∈ objGet (objGet (handleMessageReactionFromSocket cr mId e u "add") mId [])
        e [] := by
      rw [hl1]
      simp
    have h2 := client_add_mem (handleMessageReactionFromSocket cr mId e u "add") mId e u hmem2
    rw [h2, objGet_objSet, objGet_objSet, hl1, List.count_append, h0]
    simp

/-- Witness for C3: the spec scenario — user "uB" reacting twice with the
same emoji to message "m1" — on an empty table and empty client state. -/
theorem reaction_add_idempotent_witness :
    (((handleMessageReaction true
          (handleMessageReaction true [] "uB" ⟨"m1", "emoji1", "add", "c1", none⟩).1
          "uB" ⟨"m1", "emoji1", "add", "c1", none⟩).1).count ⟨"m1", "uB", "emoji1"⟩ = 1) ∧
    ((objGet (objGet
          (handleMessageReactionFromSocket
            (handleMessageReactionFromSocket [] "m1" "emoji1" "uB" "add")
            "m1" "emoji1" "uB" "add")
          "m1" []) "emoji1" []).count "uB" = 1) := by
  exact ⟨(reaction_add_idempotent [] [] "uB" "m1" "emoji1" "c1" none).1 (by decide),
    (reaction_add_idempotent [] [] "uB" "m1" "emoji1" "c1" none).2 (by decide)⟩

end SocialMedia
